import Mathlib

/-!
Shallow embedding of `src/components/series-navigation.tsx`
(the `SeriesNavigation` React component) and proofs about its
render function and toggle state.
-/

namespace SeriesNav

/-- One entry of a series: `{ slug: string; title: string }`. -/
structure ArticleRef where
  slug : String
  title : String
deriving DecidableEq, Repr

/-- The component's props: `{ title, articles, current }`.
`articles` is optional to model the `articles?.map` optional chaining. -/
structure Props where
  title : String
  articles : Option (List ArticleRef)
  current : String
deriving DecidableEq, Repr

/-- The two toggle icons: `isOpen ? <UpIcon /> : <DownIcon />`. -/
inductive Icon where
  | up
  | down
deriving DecidableEq, Repr

/-- The `className` of a list item whose slug matches `current`. -/
def highlightedClass : String :=
  "font-medium text-slate-900 underline decoration-slate-400 decoration-2 underline-offset-2 dark:text-slate-100 dark:decoration-slate-700"

/-- The `className` of a list item whose slug does not match `current`. -/
def normalClass : String :=
  "text-slate-700 hover:text-slate-900 dark:text-slate-300 dark:hover:text-slate-100"

/-- The fixed base URL prefixed to each article slug in the link `href`. -/
def blogBaseUrl : String := "https://ayoubkhial.com/blog/"

/-- The rendered `<li>` for one article: styling class, link attributes,
position label and title text. -/
structure RenderedItem where
  className : String
  href : String
  target : String
  rel : String
  partLabel : String
  titleText : String
deriving DecidableEq, Repr

/-- The always-rendered header row: heading text, the button's
`aria-expanded` attribute and the toggle icon. -/
structure Header where
  text : String
  ariaExpanded : String
  icon : Icon
deriving DecidableEq, Repr

/-- The full render output: the header, and the list body when present
(`none` models the list being absent from the output, not hidden). -/
structure Rendered where
  header : Header
  body : Option (List RenderedItem)
deriving DecidableEq, Repr

/-- `useState(false)`: the initial value of `isOpen`. -/
def initialIsOpen : Bool := false

/-- `toggleList`: `setIsOpen(!isOpen)`. -/
def toggleList (isOpen : Bool) : Bool := !isOpen

/-- The `<li>` produced for `article` at position `index`:
ternary `className`, `href={'https://ayoubkhial.com/blog/' + article?.slug}`,
`target="_blank" rel="noopener noreferrer"`, and
`Part {index + 1}:` followed by the article title. -/
def renderItem (current : String) (index : Nat) (article : ArticleRef) : RenderedItem :=
  { className := if article.slug = current then highlightedClass else normalClass
    href := blogBaseUrl ++ article.slug
    target := "_blank"
    rel := "noopener noreferrer"
    partLabel := "Part " ++ toString (index + 1) ++ ":"
    titleText := article.title }

/-- `articles?.map((article, index) => ...)`: the item list; a missing
`articles` yields no items. -/
def renderItems (p : Props) : List RenderedItem :=
  (p.articles.getD []).mapIdx (fun index article => renderItem p.current index article)

/-- The heading text: JSX text content of the `<h2>`. -/
def headerText (title : String) : String := title ++ " - Article Series"

/-- The whole component render as a function of props and the `isOpen`
state: header always, body only when `isOpen` (`isOpen && (...)`). -/
def render (p : Props) (isOpen : Bool) : Rendered :=
  { header := { text := headerText p.title
                ariaExpanded := "true"
                icon := if isOpen then Icon.up else Icon.down }
    body := if isOpen then some (renderItems p) else none }

/-- An item is highlighted when it carries the highlighted styling class. -/
def isHighlighted (item : RenderedItem) : Bool :=
  item.className == highlightedClass

/-- An item with its styling class erased, for comparing renders that may
differ only in styling. -/
def eraseClass (item : RenderedItem) : RenderedItem :=
  { item with className := "" }

/-- Sample props used to instantiate hypotheses of proved theorems. -/
def sampleProps : Props :=
  { title := "S"
    articles := some [{ slug := "foo-bar", title := "A" }, { slug := "baz", title := "B" }]
    current := "foo-bar" }

theorem classes_ne : highlightedClass ≠ normalClass := by decide

theorem length_renderItems (p : Props) :
    (renderItems p).length = (p.articles.getD []).length := by
  simp [renderItems]

theorem isHighlighted_renderItem (current : String) (index : Nat) (a : ArticleRef) :
    isHighlighted (renderItem current index a) = (a.slug == current) := by
  by_cases h : a.slug = current <;>
    simp [isHighlighted, renderItem, h, Ne.symm classes_ne]

theorem renderItems_get (p : Props) (i : Nat) (hi : i < (p.articles.getD []).length)
    (hi2 : i < (renderItems p).length) :
    (renderItems p).get ⟨i, hi2⟩
      = renderItem p.current i ((p.articles.getD []).get ⟨i, hi⟩) := by
  simp only [renderItems] at hi2 ⊢
  exact List.get_mapIdx _ _ i hi hi2

theorem countP_renderItems (p : Props) :
    (renderItems p).countP isHighlighted
      = (p.articles.getD []).countP (fun a => a.slug == p.current) := by
  rw [renderItems, List.mapIdx_eq_enum_map, List.countP_map]
  conv_rhs => rw [← List.enum_map_snd (p.articles.getD []), List.countP_map]
  apply List.countP_congr
  intro x _
  simp [Function.comp, Function.uncurry, isHighlighted_renderItem]

theorem countP_matches_le_one (l : List ArticleRef) (c : String)
    (h : (l.map ArticleRef.slug).Nodup) :
    l.countP (fun a => a.slug == c) ≤ 1 := by
  have h2 := List.nodup_iff_count_le_one.mp h c
  rw [List.count_eq_countP, List.countP_map] at h2
  simpa [Function.comp] using h2

/-- Props with two distinct articles sharing the slug "a", both matching
`current`. -/
def dupProps : Props :=
  { title := "S"
    articles := some [{ slug := "a", title := "t1" }, { slug := "a", title := "t2" }]
    current := "a" }

/-- C1 counterexample: when two articles share the slug "a" and
`current = "a"`, the expanded render highlights two list items, so
"never more than one item is highlighted" fails. -/
theorem two_items_highlighted_on_duplicate_slugs :
    ((render dupProps true).body.getD []).countP isHighlighted = 2
    ∧ ¬ ((render dupProps true).body.getD []).countP isHighlighted ≤ 1 := by
  constructor
  · rfl
  · decide

/-- C1 (amended): a rendered item is highlighted iff its slug equals
`current`; the number of highlighted items equals the number of articles
whose slug equals `current`; and when the articles' slugs are pairwise
distinct, at most one item is highlighted — exactly one if some article's
slug equals `current`, zero if none does. -/
theorem highlighted_iff_slug_matches (p : Props) :
    (∀ i, ∀ hi : i < (p.articles.getD []).length,
      isHighlighted ((renderItems p).get ⟨i, (length_renderItems p).symm ▸ hi⟩) = true
        ↔ ((p.articles.getD []).get ⟨i, hi⟩).slug = p.current)
    ∧ (renderItems p).countP isHighlighted
        = (p.articles.getD []).countP (fun a => a.slug == p.current)
    ∧ (((p.articles.getD []).map ArticleRef.slug).Nodup →
        (renderItems p).countP isHighlighted ≤ 1
        ∧ ((∃ a ∈ p.articles.getD [], a.slug = p.current)
            → (renderItems p).countP isHighlighted = 1)
        ∧ ((∀ a ∈ p.articles.getD [], a.slug ≠ p.current)
            → (renderItems p).countP isHighlighted = 0)) := by
  refine ⟨?_, countP_renderItems p, ?_⟩
  · intro i hi
    rw [renderItems_get p i hi, isHighlighted_renderItem]
    exact beq_iff_eq
  · intro hnd
    have hle : (renderItems p).countP isHighlighted ≤ 1 := by
      rw [countP_renderItems]
      exact countP_matches_le_one _ _ hnd
    refine ⟨hle, ?_, ?_⟩
    · rintro ⟨a, ha, haeq⟩
      have hpos : 0 < (renderItems p).countP isHighlighted := by
        rw [countP_renderItems]
        exact List.countP_pos_iff.mpr ⟨a, ha, by simp [haeq]⟩
      omega
    · intro hnone
      rw [countP_renderItems]
      rw [List.countP_eq_zero]
      intro a ha
      simpa using hnone a ha

/-- C1 witness: on `sampleProps` (distinct slugs, first one matching),
exactly one item is highlighted. -/
theorem highlighted_iff_slug_matches_witness :
    ((sampleProps.articles.getD []).map ArticleRef.slug).Nodup
    ∧ (∃ a ∈ sampleProps.articles.getD [], a.slug = sampleProps.current)
    ∧ (renderItems sampleProps).countP isHighlighted = 1 :=
  ⟨by decide, ⟨{ slug := "foo-bar", title := "A" }, by decide, rfl⟩,
    ((highlighted_iff_slug_matches sampleProps).2.2 (by decide)).2.1
      ⟨{ slug := "foo-bar", title := "A" }, by decide, rfl⟩⟩

/-- C2: toggling is an involution on the boolean state; one activation
from the initial state renders the list body, a second removes it
(`body = none`, absent rather than hidden). -/
theorem toggle_parity (p : Props) (s : Bool) :
    toggleList (toggleList s) = s
    ∧ (render p (toggleList initialIsOpen)).body = some (renderItems p)
    ∧ (render p (toggleList (toggleList initialIsOpen))).body = none := by
  refine ⟨?_, rfl, rfl⟩
  cases s <;> rfl

/-- C3 counterexample: the header of the rendered widget for title "T" is
"T - Article Series" with a plain hyphen-minus; it is not suffixed by an
em-dash label, since the em-dash character does not occur in it at all. -/
theorem header_has_no_emdash :
    (render { title := "T", articles := some [], current := "x" } false).header.text
      = "T - Article Series"
    ∧ (render { title := "T", articles := some [], current := "x" } false).header.text
      ≠ "T" ++ " — Article Series"
    ∧ '—' ∉ ((render { title := "T", articles := some [], current := "x" }
        false).header.text).toList := by
  refine ⟨rfl, by decide, by decide⟩

/-- C3 (amended): in both states, the header text is the series title
suffixed with the fixed label " - Article Series" (a hyphen-minus, not an
em-dash, between title and label). -/
theorem header_label (p : Props) (isOpen : Bool) :
    (render p isOpen).header.text = p.title ++ " - Article Series" := rfl

/-- C4: the rendered link targets are exactly the fixed base URL
concatenated with each article's slug, in order; the base URL is
"https://ayoubkhial.com/blog/"; and for slug "foo-bar" the target is
"https://ayoubkhial.com/blog/foo-bar". -/
theorem link_targets (p : Props) (c : String) (i : Nat) (t : String) :
    (renderItems p).map RenderedItem.href
      = (p.articles.getD []).map (fun a => blogBaseUrl ++ a.slug)
    ∧ blogBaseUrl = "https://ayoubkhial.com/blog/"
    ∧ (renderItem c i { slug := "foo-bar", title := t }).href
      = "https://ayoubkhial.com/blog/" ++ "foo-bar" := by
  refine ⟨?_, rfl, rfl⟩
  rw [renderItems, List.mapIdx_eq_enum_map, List.map_map]
  conv_rhs => rw [← List.enum_map_snd (p.articles.getD []), List.map_map]
  rfl

/-- C5: the state starts as `false` (collapsed) and the initial render's
body is absent for every props value. -/
theorem initial_render_collapsed (p : Props) :
    initialIsOpen = false ∧ (render p initialIsOpen).body = none :=
  ⟨rfl, rfl⟩

/-- C6: the item at 0-based index `i` carries the position label
"Part " followed by `i + 1` and a colon, and then the article's title. -/
theorem part_labels (p : Props) (i : Nat) (hi : i < (p.articles.getD []).length) :
    ((renderItems p).get ⟨i, (length_renderItems p).symm ▸ hi⟩).partLabel
      = "Part " ++ toString (i + 1) ++ ":"
    ∧ ((renderItems p).get ⟨i, (length_renderItems p).symm ▸ hi⟩).titleText
      = ((p.articles.getD []).get ⟨i, hi⟩).title := by
  rw [renderItems_get p i hi]
  exact ⟨rfl, rfl⟩

/-- C6 witness: on `sampleProps`, the first item's label is "Part 1:". -/
theorem part_labels_witness :
    0 < (sampleProps.articles.getD []).length
    ∧ ((renderItems sampleProps).get
        ⟨0, (length_renderItems sampleProps).symm ▸ (by decide)⟩).partLabel
      = "Part " ++ toString (0 + 1) ++ ":" :=
  ⟨by decide, (part_labels sampleProps 0 (by decide)).1⟩

/-- C7: rendering is a total function; an empty articles list renders an
empty item list when expanded, a missing (undefined) articles list also
renders an empty item list, and when no article's slug equals `current`
no item is highlighted. -/
theorem render_total_graceful (title current : String) :
    (render { title := title, articles := some [], current := current } true).body
      = some []
    ∧ (render { title := title, articles := none, current := current } true).body
      = some []
    ∧ ∀ arts : List ArticleRef, (∀ a ∈ arts, a.slug ≠ current) →
        (renderItems { title := title, articles := some arts, current := current }).countP
          isHighlighted = 0 := by
  refine ⟨rfl, rfl, ?_⟩
  intro arts hnone
  rw [countP_renderItems, List.countP_eq_zero]
  intro a ha
  simpa using hnone a ha

/-- C7 witness: with one article of slug "a" and `current = "x"`, no item
is highlighted. -/
theorem render_total_graceful_witness :
    (∀ a ∈ [ArticleRef.mk "a" "t"], a.slug ≠ "x")
    ∧ (renderItems { title := "T", articles := some [ArticleRef.mk "a" "t"], current := "x" }).countP
        isHighlighted = 0 :=
  ⟨by decide, (render_total_graceful "T" "x").2.2 [ArticleRef.mk "a" "t"] (by decide)⟩

/-- C8: every rendered item's link carries `target="_blank"` and
`rel="noopener noreferrer"`. -/
theorem links_open_isolated (p : Props) (item : RenderedItem)
    (h : item ∈ renderItems p) :
    item.target = "_blank" ∧ item.rel = "noopener noreferrer" := by
  rw [renderItems, List.mapIdx_eq_enum_map] at h
  obtain ⟨x, _, rfl⟩ := List.mem_map.mp h
  exact ⟨rfl, rfl⟩

/-- C8 witness: the first rendered item of `sampleProps` has
`target="_blank"` and the isolation rel. -/
theorem links_open_isolated_witness :
    renderItem "foo-bar" 0 { slug := "foo-bar", title := "A" }
      ∈ renderItems sampleProps
    ∧ (renderItem "foo-bar" 0 { slug := "foo-bar", title := "A" }).rel
      = "noopener noreferrer" :=
  ⟨by decide, (links_open_isolated sampleProps _ (by decide)).2⟩

/-- C9: the toggle button's `aria-expanded` attribute is the constant
string "true" in both states; only the icon differs between the two
states. -/
theorem aria_expanded_constant (p : Props) :
    (render p false).header.ariaExpanded = "true"
    ∧ (render p true).header.ariaExpanded = "true"
    ∧ (render p false).header.icon ≠ (render p true).header.icon :=
  ⟨rfl, rfl, by simp [render]⟩

/-- C10: `current` influences only the items' styling class: for any two
values of `current`, the headers agree, the presence of the body agrees,
and the item lists agree once the styling class is erased (hence link
targets, labels, titles, order and count all agree). -/
theorem current_noninterference (title : String) (arts : Option (List ArticleRef))
    (c1 c2 : String) (isOpen : Bool) :
    (render { title := title, articles := arts, current := c1 } isOpen).header
      = (render { title := title, articles := arts, current := c2 } isOpen).header
    ∧ (render { title := title, articles := arts, current := c1 } isOpen).body.isSome
      = (render { title := title, articles := arts, current := c2 } isOpen).body.isSome
    ∧ (renderItems { title := title, articles := arts, current := c1 }).map eraseClass
      = (renderItems { title := title, articles := arts, current := c2 }).map eraseClass := by
  refine ⟨rfl, by cases isOpen <;> rfl, ?_⟩
  simp only [renderItems, List.mapIdx_eq_enum_map, List.map_map]
  apply List.map_congr_left
  intro x _
  rfl

end SeriesNav
